import Mathlib

/-!
Shallow embedding of the client of `src/main.js` (a real-time multiplayer
world viewer): game state, camera derivation, remote-player interpolation,
the throttled input loop, and the WebSocket message handlers.

Conventions of the embedding:
* JavaScript numbers are idealised as exact rationals (`ℚ`); integer-valued
  quantities produced by the `| 0` coercion are `ℤ` values cast into `ℚ`.
* Timestamps (`Date.now()`) are `ℤ` milliseconds.
* The `otherPlayers.byId` object is an association list `List (String × RemotePlayer)`;
  JavaScript property assignment replaces an existing key in place or appends.
* DOM / canvas / asset-loading collaborators are excluded from the core
  (per the spec) and are represented only through their observable effect on
  the modelled state (e.g. avatar caching success is a boolean parameter).
-/

namespace MMO

/-- World image metadata (`state.world` without the image handle). -/
structure World where
  width : ℚ
  height : ℚ
  ready : Bool
  deriving DecidableEq

/-- The local player (`state.me`). -/
structure Me where
  id : Option String
  username : String
  x : ℚ
  y : ℚ
  facing : String
  animationFrame : ℤ
  avatarName : Option String
  ready : Bool
  hasServerPosition : Bool
  deriving DecidableEq

/-- A remote player entry (`state.otherPlayers.byId[id]`). -/
structure RemotePlayer where
  id : String
  x : ℚ
  y : ℚ
  facing : String
  animationFrame : ℤ
  username : String
  avatarName : String
  targetX : ℚ
  targetY : ℚ
  lastUpdate : ℤ
  deriving DecidableEq

/-- Viewport and camera (`state.viewport`). -/
structure Viewport where
  width : ℚ
  height : ℚ
  cameraX : ℚ
  cameraY : ℚ
  deriving DecidableEq

/-- The shared game state (`state` in `main.js`, minus the avatar image cache,
which is an excluded asset collaborator). -/
structure GameState where
  world : World
  me : Me
  otherPlayers : List (String × RemotePlayer)
  viewport : Viewport
  deriving DecidableEq

/-- Initial `state` object from `main.js` (world not yet loaded). -/
def initialGameState : GameState :=
  { world := { width := 0, height := 0, ready := false }
    me := { id := none, username := "Tim", x := 1024, y := 1024, facing := "south",
            animationFrame := 0, avatarName := none, ready := false,
            hasServerPosition := false }
    otherPlayers := []
    viewport := { width := 0, height := 0, cameraX := 0, cameraY := 0 } }

/-- `Math.max` on two (non-NaN) numbers. -/
def jsMax (a b : ℚ) : ℚ :=
  if a ≤ b then b else a

/-- `Math.min` on two (non-NaN) numbers. -/
def jsMin (a b : ℚ) : ℚ :=
  if a ≤ b then a else b

/-- `clamp(value, min, max)` from `main.js`: `Math.max(min, Math.min(max, value))`. -/
def clamp (value mn mx : ℚ) : ℚ :=
  jsMax mn (jsMin mx value)

/-- `updateCamera()` from `main.js`: centers the camera on the local player and
clamps each axis independently; a no-op unless the world is ready with nonzero
dimensions and a server position is known. -/
def updateCamera (s : GameState) : GameState :=
  if s.world.ready = false ∨ s.world.width = 0 ∨ s.world.height = 0 ∨
      s.me.hasServerPosition = false then s
  else
    let vw := s.viewport.width
    let vh := s.viewport.height
    let ww := s.world.width
    let wh := s.world.height
    let desiredX := s.me.x - (⌊vw / 2⌋ : ℚ)
    let desiredY := s.me.y - (⌊vh / 2⌋ : ℚ)
    let maxX := jsMax 0 (ww - vw)
    let maxY := jsMax 0 (wh - vh)
    { s with viewport := { s.viewport with
        cameraX := clamp desiredX 0 maxX
        cameraY := clamp desiredY 0 maxY } }

/-- `resizeCanvas()` from `main.js`, restricted to the modelled state: stores
the new CSS viewport size and recomputes the camera (canvas/DPR handling is
excluded rendering plumbing). -/
def resizeCanvas (innerWidth innerHeight : ℚ) (s : GameState) : GameState :=
  updateCamera { s with viewport :=
    { s.viewport with width := innerWidth, height := innerHeight } }

/-- The fixed smoothing factor `interpolationSpeed = 0.1` of
`updatePlayerInterpolation`. -/
def interpolationSpeed : ℚ := 1 / 10

/-- One interpolation step of `updatePlayerInterpolation()` for a single
remote player: move 10% of the way toward the target per axis, or snap to the
target when within 0.5 px on both axes. (In the source the step is guarded by
`targetX !== undefined && targetY !== undefined`; targets are always assigned
on creation, so they are total here.) -/
def updateRemotePlayer (player : RemotePlayer) : RemotePlayer :=
  if 1/2 < |player.targetX - player.x| ∨ 1/2 < |player.targetY - player.y| then
    { player with
        x := player.x + (player.targetX - player.x) * interpolationSpeed
        y := player.y + (player.targetY - player.y) * interpolationSpeed }
  else
    { player with x := player.targetX, y := player.targetY }

/-- `updatePlayerInterpolation()` from `main.js`: apply the interpolation step
to every remote player. -/
def updatePlayerInterpolation (s : GameState) : GameState :=
  { s with otherPlayers := s.otherPlayers.map (fun e => (e.1, updateRemotePlayer e.2)) }

/-! ## JavaScript value coercions -/

/-- A JavaScript value read from a message field where the code expects a
number: either absent (`undefined`), a non-numeric value (whose `ToNumber`
coercion is `NaN`, e.g. a string; `Infinity` behaves the same under `| 0`),
or a finite number (idealised as a rational). -/
inductive JSNum where
  | undef
  | nan
  | num (q : ℚ)
  deriving DecidableEq

/-- Truncation toward zero of a rational, as JavaScript `ToInt32` performs on
a finite number before wrapping. -/
def jsTrunc (q : ℚ) : ℤ :=
  if 0 ≤ q then ⌊q⌋ else ⌈q⌉

/-- The `| 0` coercion of `main.js` (`ToInt32`): `undefined`, `NaN` and
infinities give 0; a finite number is truncated toward zero and wrapped into
the signed 32-bit range. -/
def toInt32 : JSNum → ℤ
  | JSNum.undef => 0
  | JSNum.nan => 0
  | JSNum.num q =>
    let n := jsTrunc q % 4294967296
    if n < 2147483648 then n else n - 4294967296

/-- JavaScript `a || b` for a possibly-absent string field
(`playerUpdate.facing || player.facing`): the fallback is used when the field
is absent or falsy (the empty string). -/
def jsOrStr (v : Option String) (dflt : String) : String :=
  match v with
  | some s => if s = "" then dflt else s
  | none => dflt

/-- Truthiness of a possibly-absent string (`data.username && data.message`). -/
def jsTruthyStr (v : Option String) : Bool :=
  match v with
  | some s => decide (s ≠ "")
  | none => false

/-! ## Association-list operations for `otherPlayers.byId` -/

/-- Property lookup `byId[k]` on an association list. -/
def lookupId {α : Type} : List (String × α) → String → Option α
  | [], _ => none
  | e :: es, k => if e.1 = k then some e.2 else lookupId es k

/-- Property assignment `byId[k] = v`: replace an existing key in place,
otherwise append. -/
def setEntry {α : Type} (l : List (String × α)) (k : String) (v : α) :
    List (String × α) :=
  if (lookupId l k).isSome then
    l.map (fun e => if e.1 = k then (k, v) else e)
  else l ++ [(k, v)]

/-- In-place mutation of the entry at key `k` (the loop body of the
`players_moved` handler mutates the found player object). -/
def updateEntry {α : Type} (l : List (String × α)) (k : String) (f : α → α) :
    List (String × α) :=
  l.map (fun e => if e.1 = k then (e.1, f e.2) else e)

/-! ## Inbound message payloads -/

/-- A player record inside a server message (`data.players[id]` in `join_game`
and `players_moved`; fields the code coerces with `| 0` are `JSNum`). -/
structure ServerPlayerData where
  x : JSNum
  y : JSNum
  facing : Option String
  animationFrame : JSNum
  username : String
  avatar : String
  deriving DecidableEq

/-- The `data.player` record of a `player_joined` message. -/
structure JoinedPlayerData where
  id : String
  x : JSNum
  y : JSNum
  facing : Option String
  animationFrame : JSNum
  username : String
  avatar : String
  deriving DecidableEq

/-- A `join_game` response payload (the avatar catalog itself feeds the
excluded asset-caching collaborator and is not part of the modelled state). -/
structure JoinGameData where
  success : Option Bool
  playerId : Option String
  players : List (String × ServerPlayerData)
  deriving DecidableEq

/-! ## Message handlers -/

/-- The `players_moved` update applied to the local player
(`state.me.x = myUpdate.x | 0; ...`). -/
def applyMyUpdate (me : Me) (u : ServerPlayerData) : Me :=
  { me with x := (toInt32 u.x : ℚ)
            y := (toInt32 u.y : ℚ)
            facing := jsOrStr u.facing me.facing
            animationFrame := toInt32 u.animationFrame }

/-- The `players_moved` update applied to an existing remote player: the
*target* position is overwritten (interpolation then chases it). -/
def applyRemoteUpdate (now : ℤ) (p : RemotePlayer) (u : ServerPlayerData) :
    RemotePlayer :=
  { p with targetX := (toInt32 u.x : ℚ)
           targetY := (toInt32 u.y : ℚ)
           facing := jsOrStr u.facing p.facing
           animationFrame := toInt32 u.animationFrame
           lastUpdate := now }

/-- The body of the loop over `Object.entries(data.players)` in the
`players_moved` handler: update the target of an entry that is not the local
id and already exists in the remote map, otherwise do nothing. -/
def movedStep (now : ℤ) (s : GameState) (pu : String × ServerPlayerData) :
    GameState :=
  if some pu.1 ≠ s.me.id ∧ (lookupId s.otherPlayers pu.1).isSome then
    { s with otherPlayers :=
        updateEntry s.otherPlayers pu.1 (fun p => applyRemoteUpdate now p pu.2) }
  else s

/-- The `players_moved` branch of the message handler: overwrite the local
player's authoritative position (and recompute the camera) if the payload
names the local id; update the target of every payload entry that already
exists in the remote map; ignore unknown identifiers. -/
def handlePlayersMoved (now : ℤ) (players : List (String × ServerPlayerData))
    (s0 : GameState) : GameState :=
  let s1 :=
    match s0.me.id with
    | some myId =>
      match lookupId players myId with
      | some u => updateCamera { s0 with me := applyMyUpdate s0.me u }
      | none => s0
    | none => s0
  players.foldl (movedStep now) s1

/-- The `player_joined` branch: create (or overwrite) the remote entry with
displayed = target = given position. Avatar caching and the UI notification
are excluded collaborators; the `data.player && data.avatar` guard is the
`Option`/`Bool` pair. -/
def handlePlayerJoined (now : ℤ) (pd : Option JoinedPlayerData)
    (hasAvatar : Bool) (s : GameState) : GameState :=
  match pd, hasAvatar with
  | some p, true =>
    let entry : RemotePlayer :=
      { id := p.id
        x := (toInt32 p.x : ℚ)
        y := (toInt32 p.y : ℚ)
        facing := jsOrStr p.facing "south"
        animationFrame := toInt32 p.animationFrame
        username := p.username
        avatarName := p.avatar
        targetX := (toInt32 p.x : ℚ)
        targetY := (toInt32 p.y : ℚ)
        lastUpdate := now }
    { s with otherPlayers := setEntry s.otherPlayers p.id entry }
  | _, _ => s

/-- The `player_left` branch: remove the entry when `data.playerId` is truthy
and present in the map; otherwise a no-op. -/
def handlePlayerLeft (playerId : Option String) (s : GameState) : GameState :=
  match playerId with
  | some pid =>
    if pid ≠ "" ∧ (lookupId s.otherPlayers pid).isSome then
      { s with otherPlayers := s.otherPlayers.filter (fun e => e.1 ≠ pid) }
    else s
  | none => s

/-- The `chat` branch: forwards username/message to the DOM chat panel (an
excluded UI collaborator, returned here as the optional append) and mutates
no game state. -/
def handleChat (username message : Option String) (s : GameState) :
    GameState × Option (String × String) :=
  if jsTruthyStr username && jsTruthyStr message then
    (s, some (username.getD "", message.getD ""))
  else (s, none)

/-! ## Input subsystem: key state, movement loop, click-to-move -/

/-- The four independently tracked directional flags (`keysPressed`). -/
structure KeysPressed where
  up : Bool
  down : Bool
  left : Bool
  right : Bool
  deriving DecidableEq

/-- The module-level input/networking flags of `main.js`. -/
structure InputState where
  canSendMoveCommands : Bool
  lastMoveTime : ℤ
  keysPressed : KeysPressed
  wsOpen : Bool
  movementLoopRunning : Bool
  deriving DecidableEq

/-- Initial values of the module-level input flags. -/
def initialInputState : InputState :=
  { canSendMoveCommands := false
    lastMoveTime := 0
    keysPressed := { up := false, down := false, left := false, right := false }
    wsOpen := false
    movementLoopRunning := false }

/-- `MOVE_THROTTLE_MS = 100`. -/
def MOVE_THROTTLE_MS : ℤ := 100

/-- An outbound client-to-server message (`ws.send(JSON.stringify(...))`). -/
inductive OutMsg where
  | joinGameMsg (username : String)
  | moveDir (direction : String)
  | movePoint (x y : ℤ)
  | stopMsg
  | chatMsg (message : String)
  deriving DecidableEq

/-- Whether an outbound message is a move command (`action: "move"`, in either
the keyboard-direction or the click-to-point form). -/
def isMove : OutMsg → Bool
  | OutMsg.moveDir _ => true
  | OutMsg.movePoint _ _ => true
  | _ => false

/-- `keyMap` of `setupKeyboardInput()`. -/
def keyMap (key : String) : Option String :=
  if key = "ArrowUp" then some "up"
  else if key = "ArrowDown" then some "down"
  else if key = "ArrowLeft" then some "left"
  else if key = "ArrowRight" then some "right"
  else if key = "KeyW" then some "up"
  else if key = "KeyS" then some "down"
  else if key = "KeyA" then some "left"
  else if key = "KeyD" then some "right"
  else none

/-- Read `keysPressed[direction]`. -/
def getKey (k : KeysPressed) (d : String) : Bool :=
  if d = "up" then k.up
  else if d = "down" then k.down
  else if d = "left" then k.left
  else if d = "right" then k.right
  else false

/-- Write `keysPressed[direction] = b`. -/
def setKey (k : KeysPressed) (d : String) (b : Bool) : KeysPressed :=
  if d = "up" then { k with up := b }
  else if d = "down" then { k with down := b }
  else if d = "left" then { k with left := b }
  else if d = "right" then { k with right := b }
  else k

/-- `handleKeyDown`: mark the mapped direction pressed. -/
def handleKeyDown (k : KeysPressed) (key : String) : KeysPressed :=
  match keyMap key with
  | some d => if getKey k d = false then setKey k d true else k
  | none => k

/-- `handleKeyUp`: mark the mapped direction released. -/
def handleKeyUp (k : KeysPressed) (key : String) : KeysPressed :=
  match keyMap key with
  | some d => setKey k d false
  | none => k

/-- The active directions in `Object.entries(keysPressed)` insertion order
(up, down, left, right). -/
def activeDirections (k : KeysPressed) : List String :=
  (if k.up then ["up"] else []) ++ (if k.down then ["down"] else []) ++
  (if k.left then ["left"] else []) ++ (if k.right then ["right"] else [])

/-- One pass of `movementLoop()` in `startMovementLoop()`: idle while the
channel is not open; otherwise emit one `move` per active direction when the
gate is set and at least `MOVE_THROTTLE_MS` has elapsed since the last
emission, or a `stop` when no key is active and the gate is set. Returns the
updated flags and the messages sent this tick. -/
def movementTick (now : ℤ) (s : InputState) : InputState × List OutMsg :=
  if s.wsOpen = false then (s, [])
  else if activeDirections s.keysPressed ≠ [] ∧ s.canSendMoveCommands = true ∧
      MOVE_THROTTLE_MS ≤ now - s.lastMoveTime then
    ({ s with lastMoveTime := now },
      (activeDirections s.keysPressed).map OutMsg.moveDir)
  else if activeDirections s.keysPressed = [] ∧ s.canSendMoveCommands = true then
    (s, [OutMsg.stopMsg])
  else (s, [])

/-- The click-to-move listener of `setupKeyboardInput()`: gated on
`canSendMoveCommands` and an open channel, converts the click point to world
coordinates with the camera and sends a rounded point move — with no
interaction with the 100ms throttle. -/
def clickHandler (clickX clickY cameraX cameraY : ℚ) (s : InputState) :
    InputState × List OutMsg :=
  if s.canSendMoveCommands = true ∧ s.wsOpen = true then
    (s, [OutMsg.movePoint (round (clickX + cameraX)) (round (clickY + cameraY))])
  else (s, [])

/-- An event affecting the input subsystem: a movement-loop tick, a canvas
click (timestamped with its real-time occurrence, carrying the camera the
listener reads), a key transition, the join-success handler setting the gate
(`canSendMoveCommands = true`), or a channel state change. -/
inductive InputEvent where
  | movementTick (now : ℤ)
  | click (now : ℤ) (clickX clickY cameraX cameraY : ℚ)
  | keyDown (key : String)
  | keyUp (key : String)
  | gateSet
  | wsChange (isOpen : Bool)
  deriving DecidableEq

/-- Small-step semantics of the input subsystem over one event. -/
def inputStep (s : InputState) : InputEvent → InputState × List OutMsg
  | InputEvent.movementTick now => movementTick now s
  | InputEvent.click _ cx cy camx camy => clickHandler cx cy camx camy s
  | InputEvent.keyDown k => ({ s with keysPressed := handleKeyDown s.keysPressed k }, [])
  | InputEvent.keyUp k => ({ s with keysPressed := handleKeyUp s.keysPressed k }, [])
  | InputEvent.gateSet => ({ s with canSendMoveCommands := true }, [])
  | InputEvent.wsChange b => ({ s with wsOpen := b }, [])

/-- All outbound messages produced by a sequence of input events. -/
def runInput (s : InputState) : List InputEvent → List OutMsg
  | [] => []
  | e :: es => (inputStep s e).2 ++ runInput (inputStep s e).1 es

/-- The timestamps of the movement-loop ticks that emitted at least one move
command during a run. -/
def tickMoveTimes (s : InputState) : List InputEvent → List ℤ
  | [] => []
  | e :: es =>
    (match e with
     | InputEvent.movementTick now =>
       if (inputStep s e).2.any isMove then [now] else []
     | _ => []) ++ tickMoveTimes (inputStep s e).1 es

/-- The timestamps of all timed events (movement-loop ticks and clicks) that
emitted at least one move command during a run. -/
def allMoveTimes (s : InputState) : List InputEvent → List ℤ
  | [] => []
  | e :: es =>
    (match e with
     | InputEvent.movementTick now =>
       if (inputStep s e).2.any isMove then [now] else []
     | InputEvent.click now _ _ _ _ =>
       if (inputStep s e).2.any isMove then [now] else []
     | _ => []) ++ allMoveTimes (inputStep s e).1 es

/-- Whether a list of emission timestamps respects the 100ms throttle: each
emission is at least `MOVE_THROTTLE_MS` after the previous one (at most one
emission burst per 100ms window). -/
def movesThrottled : List ℤ → Bool
  | [] => true
  | [_] => true
  | a :: b :: rest => decide (a + MOVE_THROTTLE_MS ≤ b) && movesThrottled (b :: rest)

/-! ## Full client state and the `join_game` handler -/

/-- The whole mutable client state: the game store plus the module-level
input/networking flags. -/
structure ClientState where
  game : GameState
  input : InputState
  deriving DecidableEq

/-- A freshly seeded remote entry of the `join_game` success path. -/
def seedRemotePlayer (now : ℤ) (pid : String) (pd : ServerPlayerData) :
    RemotePlayer :=
  { id := pid
    x := (toInt32 pd.x : ℚ)
    y := (toInt32 pd.y : ℚ)
    facing := jsOrStr pd.facing "south"
    animationFrame := toInt32 pd.animationFrame
    username := pd.username
    avatarName := pd.avatar
    targetX := (toInt32 pd.x : ℚ)
    targetY := (toInt32 pd.y : ℚ)
    lastUpdate := now }

/-- The `join_game` branch of the message handler. On `success === false`:
log and return with nothing mutated. On success: adopt `playerId`, seed the
local player from the matching entry of the payload's player map (setting
`hasServerPosition`), seed every other entry as a remote player, set `ready`
once avatar caching resolves (`cachingOk` models the excluded collaborator's
success), recompute the camera, set the move-command gate and start the
movement loop. -/
def handleJoinGame (now : ℤ) (d : JoinGameData) (cachingOk : Bool)
    (c : ClientState) : ClientState :=
  if d.success = some false then c
  else
    let g0 := c.game
    let me1 : Me := { g0.me with id := d.playerId }
    let me2 : Me :=
      match d.playerId with
      | some pid =>
        match lookupId d.players pid with
        | some pd =>
          { me1 with x := (toInt32 pd.x : ℚ)
                     y := (toInt32 pd.y : ℚ)
                     facing := jsOrStr pd.facing "south"
                     animationFrame := toInt32 pd.animationFrame
                     avatarName := some pd.avatar
                     hasServerPosition := true }
        | none => me1
      | none => me1
    let others := d.players.foldl
      (fun acc pu =>
        if some pu.1 ≠ d.playerId then
          setEntry acc pu.1 (seedRemotePlayer now pu.1 pu.2)
        else acc)
      g0.otherPlayers
    let me3 : Me := if cachingOk then { me2 with ready := true } else me2
    let g1 := updateCamera { g0 with me := me3, otherPlayers := others }
    { game := g1
      input := { c.input with canSendMoveCommands := true, movementLoopRunning := true } }

/-- The interpolation tick lifted to the whole client state (it reads and
writes only the game store). -/
def clientInterpolationTick (c : ClientState) : ClientState :=
  { c with game := updatePlayerInterpolation c.game }

/-- The input-sampling tick lifted to the whole client state (it reads and
writes only the input flags, and sends messages). -/
def clientInputTick (now : ℤ) (c : ClientState) : ClientState × List OutMsg :=
  ({ c with input := (movementTick now c.input).1 }, (movementTick now c.input).2)

/-- The viewport resize lifted to the whole client state. -/
def clientResize (innerWidth innerHeight : ℚ) (c : ClientState) : ClientState :=
  { c with game := resizeCanvas innerWidth innerHeight c.game }

/-! ## Helper lemmas -/

theorem jsMax_eq (a b : ℚ) : jsMax a b = max a b := by
  rw [jsMax, max_def]

theorem jsMin_eq (a b : ℚ) : jsMin a b = min a b := by
  rw [jsMin, min_def]

theorem updateCamera_me (s : GameState) : (updateCamera s).me = s.me := by
  unfold updateCamera
  split <;> rfl

theorem updateCamera_otherPlayers (s : GameState) :
    (updateCamera s).otherPlayers = s.otherPlayers := by
  unfold updateCamera
  split <;> rfl

/-- Arithmetic core of one interpolation step: moving 10% toward the target
strictly shrinks the squared distance (when outside the snap window) and
never flips the sign of the per-axis offset. -/
theorem interp_step_key (a b : ℚ) (h : 1/2 < |a| ∨ 1/2 < |b|) :
    (a - a * (1/10))^2 + (b - b * (1/10))^2 < a^2 + b^2 ∧
    0 ≤ (a - a * (1/10)) * a ∧ 0 ≤ (b - b * (1/10)) * b := by
  refine ⟨?_, by nlinarith [sq_nonneg a], by nlinarith [sq_nonneg b]⟩
  rcases h with h | h
  · have ha : 1/4 < a^2 := by nlinarith [sq_abs a, abs_nonneg a]
    nlinarith [sq_nonneg b]
  · have hb : 1/4 < b^2 := by nlinarith [sq_abs b, abs_nonneg b]
    nlinarith [sq_nonneg a]

/-! ## Camera claims -/

/-- Claim C4: whenever the camera is actually recomputed (the world is ready
with nonzero dimensions and a server position is known), the resulting
cameraX lies in `[0, max 0 (W - w)]` and cameraY in `[0, max 0 (H - h)]`,
for every world size, viewport size and local position. -/
theorem camera_clamped (s : GameState)
    (hready : s.world.ready = true) (hw : s.world.width ≠ 0)
    (hh : s.world.height ≠ 0) (hpos : s.me.hasServerPosition = true) :
    0 ≤ (updateCamera s).viewport.cameraX ∧
    (updateCamera s).viewport.cameraX ≤ max 0 (s.world.width - s.viewport.width) ∧
    0 ≤ (updateCamera s).viewport.cameraY ∧
    (updateCamera s).viewport.cameraY ≤ max 0 (s.world.height - s.viewport.height) := by
  have hguard : ¬ (s.world.ready = false ∨ s.world.width = 0 ∨ s.world.height = 0 ∨
      s.me.hasServerPosition = false) := by
    simp [hready, hw, hh, hpos]
  simp only [updateCamera]
  rw [if_neg hguard]
  simp only [clamp, jsMax_eq, jsMin_eq]
  exact ⟨le_max_left _ _, max_le (le_max_left _ _) (min_le_left _ _),
    le_max_left _ _, max_le (le_max_left _ _) (min_le_left _ _)⟩

/-- Concrete scenario state: world 2048×2048 (ready), viewport 800×600,
local player at (1024, 1024) with a confirmed server position. -/
def scenarioState : GameState :=
  { world := { width := 2048, height := 2048, ready := true }
    me := { id := some "me", username := "Tim", x := 1024, y := 1024, facing := "south",
            animationFrame := 0, avatarName := none, ready := true,
            hasServerPosition := true }
    otherPlayers := []
    viewport := { width := 800, height := 600, cameraX := 0, cameraY := 0 } }

/-- Witness for C4 at the concrete 2048×2048 scenario state. -/
theorem camera_clamped_witness :
    0 ≤ (updateCamera scenarioState).viewport.cameraX ∧
    (updateCamera scenarioState).viewport.cameraX ≤
      max 0 (scenarioState.world.width - scenarioState.viewport.width) ∧
    0 ≤ (updateCamera scenarioState).viewport.cameraY ∧
    (updateCamera scenarioState).viewport.cameraY ≤
      max 0 (scenarioState.world.height - scenarioState.viewport.height) :=
  camera_clamped scenarioState rfl (by norm_num [scenarioState])
    (by norm_num [scenarioState]) rfl

/-- Claim C9: with world 2048×2048, viewport 800×600 and local position
(1024, 1024), recomputing the camera yields (624, 724). -/
theorem camera_scenario_2048 :
    (updateCamera scenarioState).viewport.cameraX = 624 ∧
    (updateCamera scenarioState).viewport.cameraY = 724 := by
  norm_num [updateCamera, scenarioState, clamp, jsMax, jsMin]

/-- Claim C6: while no authoritative position has been received (or the world
is not ready or has a zero dimension), recomputing the camera leaves cameraX
and cameraY at their prior values. -/
theorem camera_noop_when_ungated (s : GameState)
    (h : s.me.hasServerPosition = false ∨ s.world.ready = false ∨
         s.world.width = 0 ∨ s.world.height = 0) :
    (updateCamera s).viewport.cameraX = s.viewport.cameraX ∧
    (updateCamera s).viewport.cameraY = s.viewport.cameraY := by
  have hguard : s.world.ready = false ∨ s.world.width = 0 ∨ s.world.height = 0 ∨
      s.me.hasServerPosition = false := by tauto
  simp only [updateCamera]
  rw [if_pos hguard]
  exact ⟨rfl, rfl⟩

/-- Witness for C6 at the initial state (no server position yet). -/
theorem camera_noop_witness :
    (updateCamera initialGameState).viewport.cameraX =
      initialGameState.viewport.cameraX ∧
    (updateCamera initialGameState).viewport.cameraY =
      initialGameState.viewport.cameraY :=
  camera_noop_when_ungated initialGameState (Or.inl rfl)

/-! ## Interpolation claims -/

/-- Claim C2: on a tick where the snap condition does not hold, the squared
distance from displayed to target strictly decreases and neither axis
overshoots (the sign of target − displayed is preserved or becomes zero). -/
theorem interpolation_decreases_distance (p : RemotePlayer)
    (h : 1/2 < |p.targetX - p.x| ∨ 1/2 < |p.targetY - p.y|) :
    (p.targetX - (updateRemotePlayer p).x)^2 + (p.targetY - (updateRemotePlayer p).y)^2 <
      (p.targetX - p.x)^2 + (p.targetY - p.y)^2 ∧
    0 ≤ (p.targetX - (updateRemotePlayer p).x) * (p.targetX - p.x) ∧
    0 ≤ (p.targetY - (updateRemotePlayer p).y) * (p.targetY - p.y) := by
  obtain ⟨h1, h2, h3⟩ := interp_step_key (p.targetX - p.x) (p.targetY - p.y) h
  simp only [updateRemotePlayer]
  rw [if_pos h]
  simp only [interpolationSpeed]
  refine ⟨by linarith [h1], by linarith [h2], by linarith [h3]⟩

/-- Remote player far from its target (offset 10 on the x axis). -/
def farPlayer : RemotePlayer :=
  { id := "r1", x := 0, y := 0, facing := "south", animationFrame := 0,
    username := "u", avatarName := "a", targetX := 10, targetY := 0, lastUpdate := 0 }

/-- Witness for C2 at a player 10px from its target. -/
theorem interpolation_decreases_distance_witness :
    (farPlayer.targetX - (updateRemotePlayer farPlayer).x)^2 +
      (farPlayer.targetY - (updateRemotePlayer farPlayer).y)^2 <
      (farPlayer.targetX - farPlayer.x)^2 + (farPlayer.targetY - farPlayer.y)^2 ∧
    0 ≤ (farPlayer.targetX - (updateRemotePlayer farPlayer).x) *
      (farPlayer.targetX - farPlayer.x) ∧
    0 ≤ (farPlayer.targetY - (updateRemotePlayer farPlayer).y) *
      (farPlayer.targetY - farPlayer.y) :=
  interpolation_decreases_distance farPlayer (Or.inl (by norm_num [farPlayer]))

/-- Claim C3: on a tick where both axes are within 0.5 of the target, the
displayed position snaps exactly to the target. -/
theorem interpolation_snaps (p : RemotePlayer)
    (hx : |p.targetX - p.x| ≤ 1/2) (hy : |p.targetY - p.y| ≤ 1/2) :
    (updateRemotePlayer p).x = p.targetX ∧ (updateRemotePlayer p).y = p.targetY := by
  have hn : ¬ (1/2 < |p.targetX - p.x| ∨ 1/2 < |p.targetY - p.y|) := by
    push_neg
    exact ⟨hx, hy⟩
  simp only [updateRemotePlayer]
  rw [if_neg hn]
  exact ⟨rfl, rfl⟩

/-- Remote player within the snap window (offset 0.3 on the x axis). -/
def nearPlayer : RemotePlayer :=
  { id := "r2", x := 0, y := 0, facing := "south", animationFrame := 0,
    username := "u", avatarName := "a", targetX := 3/10, targetY := 0, lastUpdate := 0 }

/-- Witness for C3 at a player 0.3px from its target. -/
theorem interpolation_snaps_witness :
    (updateRemotePlayer nearPlayer).x = nearPlayer.targetX ∧
    (updateRemotePlayer nearPlayer).y = nearPlayer.targetY :=
  interpolation_snaps nearPlayer (by norm_num [nearPlayer, abs_le])
    (by norm_num [nearPlayer, abs_le])

/-! ## Association-list lemmas -/

theorem lookupId_updateEntry_none {α : Type} (l : List (String × α))
    (k pid : String) (f : α → α) (h : lookupId l pid = none) :
    lookupId (updateEntry l k f) pid = none := by
  induction l with
  | nil => rfl
  | cons e es ih =>
    rw [lookupId] at h
    by_cases hp : e.1 = pid
    · rw [if_pos hp] at h
      exact absurd h (Option.some_ne_none _)
    · rw [if_neg hp] at h
      simp only [updateEntry, List.map_cons]
      by_cases hk : e.1 = k
      · simp only [hk, if_true, lookupId]
        rw [if_neg (hk ▸ hp)]
        exact ih h
      · simp only [hk, if_false, lookupId]
        rw [if_neg hp]
        exact ih h

theorem lookupId_updateEntry_self {α : Type} (l : List (String × α))
    (k : String) (f : α → α) :
    lookupId (updateEntry l k f) k = Option.map f (lookupId l k) := by
  induction l with
  | nil => rfl
  | cons e es ih =>
    simp only [updateEntry, List.map_cons]
    by_cases hk : e.1 = k
    · simp only [hk, if_true, lookupId, if_pos rfl]
      rfl
    · simp only [hk, if_false, lookupId, if_neg hk]
      exact ih

/-- The loop of the `players_moved` handler never creates an entry: an
identifier absent from the remote map stays absent. -/
theorem foldl_movedStep_none (now : ℤ) (pid : String) :
    ∀ (players : List (String × ServerPlayerData)) (s : GameState),
      lookupId s.otherPlayers pid = none →
      lookupId (players.foldl (movedStep now) s).otherPlayers pid = none := by
  intro players
  induction players with
  | nil => exact fun s h => h
  | cons pu pus ih =>
    intro s h
    rw [List.foldl_cons]
    apply ih
    unfold movedStep
    split
    · exact lookupId_updateEntry_none s.otherPlayers pu.1 pid
        (fun p => applyRemoteUpdate now p pu.2) h
    · exact h

/-! ## Local-player immutability (C5) -/

/-- Claim C5: the local player's authoritative position is modified only by
the server-message handlers (`join_game` success / `players_moved`); the
interpolation tick, the input-sampling tick, viewport resize, and the
`player_joined`, `player_left` and `chat` handlers all leave `me.x`, `me.y`
unchanged — there is no local prediction. -/
theorem no_local_prediction :
    (∀ c : ClientState, (clientInterpolationTick c).game.me.x = c.game.me.x ∧
        (clientInterpolationTick c).game.me.y = c.game.me.y) ∧
    (∀ (now : ℤ) (c : ClientState),
        (clientInputTick now c).1.game.me.x = c.game.me.x ∧
        (clientInputTick now c).1.game.me.y = c.game.me.y) ∧
    (∀ (w h : ℚ) (s : GameState), (resizeCanvas w h s).me.x = s.me.x ∧
        (resizeCanvas w h s).me.y = s.me.y) ∧
    (∀ (now : ℤ) (pd : Option JoinedPlayerData) (hasAvatar : Bool) (s : GameState),
        (handlePlayerJoined now pd hasAvatar s).me.x = s.me.x ∧
        (handlePlayerJoined now pd hasAvatar s).me.y = s.me.y) ∧
    (∀ (pid : Option String) (s : GameState),
        (handlePlayerLeft pid s).me.x = s.me.x ∧
        (handlePlayerLeft pid s).me.y = s.me.y) ∧
    (∀ (u m : Option String) (s : GameState),
        (handleChat u m s).1.me.x = s.me.x ∧ (handleChat u m s).1.me.y = s.me.y) := by
  refine ⟨fun c => ⟨rfl, rfl⟩, fun now c => ⟨rfl, rfl⟩, fun w h s => ?_,
    fun now pd hasAvatar s => ?_, fun pid s => ?_, fun u m s => ?_⟩
  · unfold resizeCanvas
    rw [updateCamera_me]
    exact ⟨rfl, rfl⟩
  · unfold handlePlayerJoined
    cases pd <;> cases hasAvatar <;> exact ⟨rfl, rfl⟩
  · unfold handlePlayerLeft
    cases pid with
    | none => exact ⟨rfl, rfl⟩
    | some p =>
      dsimp only
      by_cases hc : p ≠ "" ∧ (lookupId s.otherPlayers p).isSome = true
      · rw [if_pos hc]
        exact ⟨rfl, rfl⟩
      · rw [if_neg hc]
        exact ⟨rfl, rfl⟩
  · unfold handleChat
    by_cases hc : (jsTruthyStr u && jsTruthyStr m) = true
    · rw [if_pos hc]
      exact ⟨rfl, rfl⟩
    · rw [if_neg hc]
      exact ⟨rfl, rfl⟩

/-! ## Join-failure rollback (C7) -/

/-- Claim C7: a `join_game` response with `success` equal to `false` mutates
nothing at all — the local player, the remote map, the camera and the
move-command gate are exactly as before, and nothing further happens. -/
theorem join_failure_noop (now : ℤ) (d : JoinGameData) (cachingOk : Bool)
    (c : ClientState) (h : d.success = some false) :
    handleJoinGame now d cachingOk c = c := by
  rw [handleJoinGame, if_pos h]

/-- A concrete rejected join payload. -/
def rejectedJoin : JoinGameData :=
  { success := some false, playerId := some "p1", players := [] }

/-- Witness for C7 at the initial client state. -/
theorem join_failure_noop_witness :
    handleJoinGame 0 rejectedJoin true
        { game := initialGameState, input := initialInputState } =
      { game := initialGameState, input := initialInputState } :=
  join_failure_noop 0 rejectedJoin true _ rfl

/-! ## Unknown identifiers in `players_moved` (C8) -/

/-- Claim C8: a `players_moved` identifier that is neither the local id nor
already present in the remote map is ignored — no entry is created for it. -/
theorem players_moved_ignores_unknown (now : ℤ)
    (players : List (String × ServerPlayerData)) (s : GameState) (pid : String)
    (_hid : s.me.id ≠ some pid) (habs : lookupId s.otherPlayers pid = none) :
    lookupId (handlePlayersMoved now players s).otherPlayers pid = none := by
  simp only [handlePlayersMoved]
  apply foldl_movedStep_none
  cases hme : s.me.id with
  | none => exact habs
  | some myId =>
    dsimp only
    cases hlu : lookupId players myId with
    | none => exact habs
    | some u =>
      dsimp only
      rw [updateCamera_otherPlayers]
      exact habs

/-- A concrete remote player stored in the map under id "r1". -/
def storedPlayer : RemotePlayer :=
  { id := "r1", x := 100, y := 200, facing := "south", animationFrame := 0,
    username := "remote", avatarName := "a", targetX := 100, targetY := 200,
    lastUpdate := 0 }

/-- A concrete `players_moved` entry payload. -/
def ghostUpdate : ServerPlayerData :=
  { x := JSNum.num 5, y := JSNum.num 6, facing := none,
    animationFrame := JSNum.undef, username := "ghost", avatar := "g" }

/-- A concrete state with local id "me" and one remote player "r1". -/
def oneRemoteState : GameState :=
  { scenarioState with otherPlayers := [("r1", storedPlayer)] }

/-- Witness for C8: an update for the unknown id "ghost" creates no entry. -/
theorem players_moved_ignores_unknown_witness :
    lookupId (handlePlayersMoved 7 [("ghost", ghostUpdate)] oneRemoteState).otherPlayers
      "ghost" = none :=
  players_moved_ignores_unknown 7 [("ghost", ghostUpdate)] oneRemoteState "ghost"
    (by decide) rfl

/-! ## 32-bit coercion of `players_moved` fields (C10) -/

/-- For finite values in `[0, 2^31)`, the `| 0` coercion is exactly `⌊q⌋`
(truncation toward zero of a nonnegative number). -/
theorem toInt32_nonneg_small (q : ℚ) (h0 : 0 ≤ q) (h1 : q < 2147483648) :
    toInt32 (JSNum.num q) = ⌊q⌋ := by
  have hf0 : 0 ≤ ⌊q⌋ := Int.floor_nonneg.mpr h0
  have hf1 : ⌊q⌋ < 2147483648 := by
    rw [Int.floor_lt]
    exact_mod_cast h1
  simp only [toInt32, jsTrunc]
  rw [if_pos h0]
  split <;> omega

/-- For finite values in `[-2^31, 0)`, the `| 0` coercion is exactly `⌈q⌉`
(truncation toward zero of a negative number). -/
theorem toInt32_neg_small (q : ℚ) (h0 : -2147483648 ≤ q) (h1 : q < 0) :
    toInt32 (JSNum.num q) = ⌈q⌉ := by
  have hc1 : ⌈q⌉ ≤ 0 := Int.ceil_le.mpr (by exact_mod_cast h1.le)
  have hc0 : -2147483648 ≤ ⌈q⌉ := by
    have := Int.ceil_le_ceil (α := ℚ) h0
    rw [show ((-2147483648 : ℚ)) = ((-2147483648 : ℤ) : ℚ) by norm_num,
      Int.ceil_intCast] at this
    exact this
  simp only [toInt32, jsTrunc]
  rw [if_neg (not_le.mpr h1)]
  split <;> omega

/-- Claim C10: a `players_moved` update applied to a known player — the
local player (main.js 699-709) or an existing remote player (main.js
711-722) — coerces the incoming `x`, `y` and `animationFrame` with the
32-bit `| 0` truncation: the handler stores exactly `toInt32` of each field
(so a missing or non-numeric field becomes 0 and a fractional in-range value
is truncated toward zero), and the position is never merged field-wise with
the previous one. -/
theorem players_moved_coerces_int32 :
    (∀ (now : ℤ) (s : GameState) (pid : String) (u : ServerPlayerData)
        (p : RemotePlayer), s.me.id ≠ some pid →
        lookupId s.otherPlayers pid = some p →
        lookupId (handlePlayersMoved now [(pid, u)] s).otherPlayers pid
          = some (applyRemoteUpdate now p u)) ∧
    (∀ (now : ℤ) (s : GameState) (myId : String) (u : ServerPlayerData),
        s.me.id = some myId →
        (handlePlayersMoved now [(myId, u)] s).me.x = ((toInt32 u.x : ℤ) : ℚ) ∧
        (handlePlayersMoved now [(myId, u)] s).me.y = ((toInt32 u.y : ℤ) : ℚ) ∧
        (handlePlayersMoved now [(myId, u)] s).me.animationFrame
          = toInt32 u.animationFrame) ∧
    (∀ (now : ℤ) (p : RemotePlayer) (u : ServerPlayerData),
        (applyRemoteUpdate now p u).targetX = ((toInt32 u.x : ℤ) : ℚ) ∧
        (applyRemoteUpdate now p u).targetY = ((toInt32 u.y : ℤ) : ℚ) ∧
        (applyRemoteUpdate now p u).animationFrame = toInt32 u.animationFrame) ∧
    (∀ (me : Me) (u : ServerPlayerData),
        (applyMyUpdate me u).x = ((toInt32 u.x : ℤ) : ℚ) ∧
        (applyMyUpdate me u).y = ((toInt32 u.y : ℤ) : ℚ) ∧
        (applyMyUpdate me u).animationFrame = toInt32 u.animationFrame) ∧
    toInt32 JSNum.undef = 0 ∧ toInt32 JSNum.nan = 0 ∧
    (∀ q : ℚ, 0 ≤ q → q < 2147483648 → toInt32 (JSNum.num q) = ⌊q⌋) ∧
    (∀ q : ℚ, -2147483648 ≤ q → q < 0 → toInt32 (JSNum.num q) = ⌈q⌉) := by
  refine ⟨?_, ?_, fun now p u => ⟨rfl, rfl, rfl⟩, fun me u => ⟨rfl, rfl, rfl⟩,
    rfl, rfl, toInt32_nonneg_small, toInt32_neg_small⟩
  · intro now s pid u p hid hp
    simp only [handlePlayersMoved]
    have hs1 : (match s.me.id with
        | some myId =>
          match lookupId [(pid, u)] myId with
          | some v => updateCamera { s with me := applyMyUpdate s.me v }
          | none => s
        | none => s) = s := by
      cases hme : s.me.id with
      | none => rfl
      | some myId =>
        dsimp only
        have : lookupId [(pid, u)] myId = none := by
          have hne : ¬ pid = myId := by
            intro he
            exact hid (he ▸ hme)
          simp only [lookupId, hne, if_false]
        rw [this]
    rw [hs1, List.foldl_cons, List.foldl_nil]
    unfold movedStep
    rw [if_pos ⟨Ne.symm hid, by rw [hp]; rfl⟩]
    have := lookupId_updateEntry_self s.otherPlayers pid
      (fun q => applyRemoteUpdate now q u)
    dsimp only
    rw [this, hp]
    rfl
  · intro now s myId u hme
    have hl : lookupId [(myId, u)] myId = some u := by
      rw [lookupId, if_pos rfl]
    have hstate : handlePlayersMoved now [(myId, u)] s =
        updateCamera { s with me := applyMyUpdate s.me u } := by
      simp only [handlePlayersMoved]
      rw [hme]
      dsimp only
      rw [hl]
      dsimp only
      rw [List.foldl_cons, List.foldl_nil]
      unfold movedStep
      have hid1 : (updateCamera { s with me := applyMyUpdate s.me u }).me.id
          = some myId := by
        rw [updateCamera_me]
        exact hme
      rw [if_neg fun hc => hc.1 hid1.symm]
    rw [hstate, updateCamera_me]
    exact ⟨rfl, rfl, rfl⟩

/-- A fractional, partially missing `players_moved` entry payload. -/
def fractionalUpdate : ServerPlayerData :=
  { x := JSNum.num (205/2), y := JSNum.undef, facing := none,
    animationFrame := JSNum.nan, username := "remote", avatar := "a" }

/-- Witness for C10: the update for the known remote id "r1" with `x = 102.5`
and a missing `y`, and the same update addressed to the local id "me". -/
theorem players_moved_coerces_int32_witness :
    lookupId (handlePlayersMoved 9 [("r1", fractionalUpdate)] oneRemoteState).otherPlayers
        "r1" = some (applyRemoteUpdate 9 storedPlayer fractionalUpdate) ∧
    ((handlePlayersMoved 9 [("me", fractionalUpdate)] oneRemoteState).me.x =
        ((toInt32 fractionalUpdate.x : ℤ) : ℚ) ∧
      (handlePlayersMoved 9 [("me", fractionalUpdate)] oneRemoteState).me.y =
        ((toInt32 fractionalUpdate.y : ℤ) : ℚ) ∧
      (handlePlayersMoved 9 [("me", fractionalUpdate)] oneRemoteState).me.animationFrame =
        toInt32 fractionalUpdate.animationFrame) :=
  ⟨players_moved_coerces_int32.1 9 oneRemoteState "r1" fractionalUpdate storedPlayer
      (by decide) rfl,
   players_moved_coerces_int32.2.1 9 oneRemoteState "me" fractionalUpdate rfl⟩

/-! ## Move-command gating and throttling (C1) -/

theorem map_moveDir_any (l : List String) (h : l ≠ []) :
    (l.map OutMsg.moveDir).any isMove = true := by
  cases l with
  | nil => exact absurd rfl h
  | cons a as => simp [isMove]

/-- A movement-loop tick that emitted a move command records `now` as the
last emission time, and could only fire at least `MOVE_THROTTLE_MS` after the
previous recorded emission. -/
theorem movementTick_emit (now : ℤ) (s : InputState)
    (h : ((movementTick now s).2.any isMove) = true) :
    (movementTick now s).1.lastMoveTime = now ∧
      s.lastMoveTime + MOVE_THROTTLE_MS ≤ now := by
  unfold movementTick at *
  by_cases hws : s.wsOpen = false
  · rw [if_pos hws] at h
    simp at h
  · rw [if_neg hws] at h ⊢
    by_cases hc : activeDirections s.keysPressed ≠ [] ∧ s.canSendMoveCommands = true ∧
        MOVE_THROTTLE_MS ≤ now - s.lastMoveTime
    · rw [if_pos hc] at h ⊢
      exact ⟨rfl, by linarith [hc.2.2]⟩
    · rw [if_neg hc] at h ⊢
      by_cases hs2 : activeDirections s.keysPressed = [] ∧ s.canSendMoveCommands = true
      · rw [if_pos hs2] at h
        simp [isMove] at h
      · rw [if_neg hs2] at h
        simp at h

/-- A movement-loop tick that emitted no move command leaves the input flags
(in particular `lastMoveTime`) untouched. -/
theorem movementTick_no_emit (now : ℤ) (s : InputState)
    (h : ((movementTick now s).2.any isMove) = false) :
    (movementTick now s).1 = s := by
  unfold movementTick at *
  by_cases hws : s.wsOpen = false
  · rw [if_pos hws]
  · rw [if_neg hws] at h ⊢
    by_cases hc : activeDirections s.keysPressed ≠ [] ∧ s.canSendMoveCommands = true ∧
        MOVE_THROTTLE_MS ≤ now - s.lastMoveTime
    · rw [if_pos hc] at h
      rw [map_moveDir_any _ hc.1] at h
      exact absurd h (by simp)
    · rw [if_neg hc] at h ⊢
      by_cases hs2 : activeDirections s.keysPressed = [] ∧ s.canSendMoveCommands = true
      · rw [if_pos hs2]
      · rw [if_neg hs2]

/-- While the gate is off, no event makes the input subsystem emit a move. -/
theorem inputStep_no_move_of_gate_off (s : InputState) (e : InputEvent)
    (h : s.canSendMoveCommands = false) :
    ∀ m ∈ (inputStep s e).2, isMove m = false := by
  cases e <;> intro m hm <;>
    simp [inputStep, movementTick, clickHandler, h] at hm

/-- No event other than the join-success gate turns the gate on. -/
theorem inputStep_gate_off_preserved (s : InputState) (e : InputEvent)
    (h : s.canSendMoveCommands = false) (he : e ≠ InputEvent.gateSet) :
    (inputStep s e).1.canSendMoveCommands = false := by
  cases e with
  | gateSet => exact absurd rfl he
  | movementTick now => simp [inputStep, movementTick, h]
  | click now cx cy camx camy => simp [inputStep, clickHandler, h]
  | keyDown k => exact h
  | keyUp k => exact h
  | wsChange b => exact h

/-- No move message is ever emitted from a gate-off state by a run that never
sets the gate. -/
theorem runInput_gate_off (events : List InputEvent) :
    ∀ s : InputState, s.canSendMoveCommands = false →
      InputEvent.gateSet ∉ events →
      ∀ m ∈ runInput s events, isMove m = false := by
  induction events with
  | nil =>
    intro s _ _ m hm
    simp [runInput] at hm
  | cons e es ih =>
    intro s h hg m hm
    rw [runInput] at hm
    rcases List.mem_append.mp hm with hm1 | hm2
    · exact inputStep_no_move_of_gate_off s e h m hm1
    · have he : e ≠ InputEvent.gateSet := fun heq => hg (heq ▸ List.mem_cons_self e es)
      have hg' : InputEvent.gateSet ∉ es := fun hgg => hg (List.mem_cons_of_mem _ hgg)
      exact ih _ (inputStep_gate_off_preserved s e h he) hg' m hm2

/-- Invariant of a run: the emission times of the movement loop are spaced by
at least `MOVE_THROTTLE_MS`, and the first is at least `MOVE_THROTTLE_MS`
after the recorded `lastMoveTime`. -/
theorem tickMoveTimes_throttled (events : List InputEvent) :
    ∀ s : InputState,
      movesThrottled (tickMoveTimes s events) = true ∧
      ∀ t, (tickMoveTimes s events).head? = some t →
        s.lastMoveTime + MOVE_THROTTLE_MS ≤ t := by
  induction events with
  | nil =>
    intro s
    refine ⟨rfl, fun t ht => ?_⟩
    simp [tickMoveTimes] at ht
  | cons e es ih =>
    intro s
    match e with
    | InputEvent.movementTick now =>
      by_cases hm : ((movementTick now s).2.any isMove) = true
      · have he := movementTick_emit now s hm
        obtain ⟨h1, h2⟩ := ih (movementTick now s).1
        have hlist : tickMoveTimes s (InputEvent.movementTick now :: es) =
            now :: tickMoveTimes (movementTick now s).1 es := by
          rw [tickMoveTimes]
          dsimp only [inputStep]
          rw [if_pos hm]
          rfl
        rw [hlist]
        constructor
        · cases hr : tickMoveTimes (movementTick now s).1 es with
          | nil => rfl
          | cons b bs =>
            have hb : now + MOVE_THROTTLE_MS ≤ b := by
              have := h2 b (by rw [hr]; rfl)
              rw [he.1] at this
              exact this
            rw [hr] at h1
            show (decide (now + MOVE_THROTTLE_MS ≤ b) && movesThrottled (b :: bs)) = true
            rw [h1, decide_eq_true hb]
            rfl
        · intro t ht
          rw [List.head?_cons, Option.some.injEq] at ht
          rw [← ht]
          exact he.2
      · have hm' : ((movementTick now s).2.any isMove) = false := by
          revert hm
          cases (movementTick now s).2.any isMove <;> simp
        have hstate := movementTick_no_emit now s hm'
        have hlist : tickMoveTimes s (InputEvent.movementTick now :: es) =
            tickMoveTimes (movementTick now s).1 es := by
          rw [tickMoveTimes]
          dsimp only [inputStep]
          rw [if_neg hm]
          rfl
        rw [hlist, hstate]
        exact ih s
    | InputEvent.click now cx cy camx camy =>
      have hstate : (inputStep s (InputEvent.click now cx cy camx camy)).1 = s := by
        show (clickHandler cx cy camx camy s).1 = s
        unfold clickHandler
        split <;> rfl
      have hlist : tickMoveTimes s (InputEvent.click now cx cy camx camy :: es) =
          tickMoveTimes (inputStep s (InputEvent.click now cx cy camx camy)).1 es := rfl
      rw [hlist, hstate]
      exact ih s
    | InputEvent.keyDown k =>
      have hlist : tickMoveTimes s (InputEvent.keyDown k :: es) =
          tickMoveTimes { s with keysPressed := handleKeyDown s.keysPressed k } es := rfl
      rw [hlist]
      exact ih _
    | InputEvent.keyUp k =>
      have hlist : tickMoveTimes s (InputEvent.keyUp k :: es) =
          tickMoveTimes { s with keysPressed := handleKeyUp s.keysPressed k } es := rfl
      rw [hlist]
      exact ih _
    | InputEvent.gateSet =>
      have hlist : tickMoveTimes s (InputEvent.gateSet :: es) =
          tickMoveTimes { s with canSendMoveCommands := true } es := rfl
      rw [hlist]
      exact ih _
    | InputEvent.wsChange b =>
      have hlist : tickMoveTimes s (InputEvent.wsChange b :: es) =
          tickMoveTimes { s with wsOpen := b } es := rfl
      rw [hlist]
      exact ih _

/-- Counterexample to claim C1 as stated: with the gate set, two
click-to-move commands sent 50ms apart both go out. The click listener checks
only the gate and the open channel — it neither consults nor updates
`lastMoveTime` — so "at most one emission burst per 100ms window regardless
of how often ... any other send path runs" fails on this run. -/
theorem click_bypasses_throttle :
    movesThrottled (allMoveTimes initialInputState
      [InputEvent.wsChange true, InputEvent.gateSet,
       InputEvent.click 0 10 10 0 0, InputEvent.click 50 10 10 0 0]) = false := by
  decide

/-- Claim C1 (amended): no move command is ever emitted before the
join-success gate is set, and the movement-loop (keyboard) emissions are
throttled to at most one burst per 100ms window; the click-to-move path,
while gated the same way, is exempt from the throttle. -/
theorem move_gate_and_loop_throttle :
    (∀ events : List InputEvent, InputEvent.gateSet ∉ events →
        ∀ m ∈ runInput initialInputState events, isMove m = false) ∧
    (∀ events : List InputEvent,
        movesThrottled (tickMoveTimes initialInputState events) = true) :=
  ⟨fun events hg => runInput_gate_off events initialInputState rfl hg,
   fun events => (tickMoveTimes_throttled events initialInputState).1⟩

/-- Witness for C1 (amended): a gate-less run emits nothing, and a run with
three ticks at 100, 150 and 210 ms emits bursts only at 100 and 210. -/
theorem move_gate_and_loop_throttle_witness :
    (∀ m ∈ runInput initialInputState
        [InputEvent.wsChange true, InputEvent.keyDown "ArrowUp",
         InputEvent.movementTick 0], isMove m = false) ∧
    movesThrottled (tickMoveTimes initialInputState
        [InputEvent.wsChange true, InputEvent.gateSet, InputEvent.keyDown "ArrowUp",
         InputEvent.movementTick 100, InputEvent.movementTick 150,
         InputEvent.movementTick 210]) = true :=
  ⟨move_gate_and_loop_throttle.1 _ (by decide),
   move_gate_and_loop_throttle.2 _⟩

end MMO
